import Mathlib

/-!
Shallow embedding of `src/main.py`, a six-endpoint HTTP routing table
(path/query parameter extraction, enumerated path segments, JSON body
validation), together with theorems settling the spec claims about it.

Python dicts built by the handlers are modelled as association lists
`List (String × Value)` in insertion order; `dict.update` with a fresh key
appends at the end, which is what the handlers do.  Optional query
parameters are `Option` values; Python truthiness of an optional string
(`if q:`) is "present and non-empty".
-/

/-- Values appearing in the handlers' result objects. -/
inductive Value where
  | str (s : String)
  | int (n : Int)
  | strList (l : List String)
deriving DecidableEq, Repr

namespace Main

/-- Embedding of `class ModelName(str, Enum)` with members `alexnet`, `resnet`, `lenet`
(src/main.py lines 7-10). -/
inductive ModelName where
  | alexnet
  | resnet
  | lenet
deriving DecidableEq, Repr

/-- The underlying string value of each enum member. -/
def ModelName.value : ModelName → String
  | .alexnet => "alexnet"
  | .resnet => "resnet"
  | .lenet => "lenet"

/-- Embedding of `class Item(BaseModel)` (src/main.py lines 14-18): `name` and `price`
required, `description` and `tax` optional defaulting to `None`.  The JSON
number carried by `price`/`tax` is represented as a rational: no
floating-point arithmetic is ever performed on it, the handlers only pass
it through. -/
structure Item where
  name : String
  description : Option String := none
  price : ℚ
  tax : Option ℚ := none
deriving DecidableEq, Repr

/-- Embedding of `async def root()` (src/main.py lines 30-32): returns
`{'message': 'Hello World'}`. -/
def root : List (String × String) :=
  [("message", "Hello World")]

/-- Embedding of `async def read_item(user_id, item_id, q, bananas, short)`
(src/main.py lines 43-75).  `q` arrives as `Option String` (alias
`item-query`, default `None`), `bananas` as a list of raw string values
(default `[]`), `short` as a `Bool` (default `false`).  Mirrors the
Python body: start from `{'item_id': item_id, 'owner_id': user_id}`,
then `update` with `q`, `bananas`, `description` under the respective
truthiness tests. -/
def read_item (user_id : Int) (item_id : String) (q : Option String)
    (bananas : List String) (short : Bool) : List (String × Value) :=
  let item : List (String × Value) :=
    [("item_id", .str item_id), ("owner_id", .int user_id)]
  let item :=
    match q with
    | some s => if s = "" then item else item ++ [("q", .str s)]
    | none => item
  let item :=
    if bananas = [] then item else item ++ [("bananas", .strList bananas)]
  let item :=
    if short then item
    else item ++ [("description",
      .str " This is an amazing item that has a long description")]
  item

/-- Embedding of `async def get_model(model_name)` (src/main.py lines 82-87).  The
first branch compares enum identity (`is ModelName.alexnet`), the second
compares the underlying string (`model_name.value == 'lenet'`), the rest
falls through.  Result is `{'model_name': model_name, 'message': ...}`,
modelled as the pair (model_name, message). -/
def get_model (model_name : ModelName) : ModelName × String :=
  if model_name = ModelName.alexnet then
    (model_name, "Deep Learning FTW!")
  else if model_name.value == "lenet" then
    (model_name, "LeCNN all the images")
  else
    (model_name, "Have some residuals")

/-- Variant of `get_model` whose `lenet` branch compares by enum identity
(`model_name is ModelName.lenet`) instead of underlying string value, as
described in the spec's tie-break note (§4.4). -/
def get_model_by_identity (model_name : ModelName) : ModelName × String :=
  if model_name = ModelName.alexnet then
    (model_name, "Deep Learning FTW!")
  else if model_name = ModelName.lenet then
    (model_name, "LeCNN all the images")
  else
    (model_name, "Have some residuals")

/-- Embedding of `async def read_user_item(item_id, needy)` (src/main.py lines 91-93):
returns `{'item_id': item_id, 'needy': needy}`. -/
def read_user_item (item_id needy : String) : List (String × String) :=
  [("item_id", item_id), ("needy", needy)]

/-- Modelled from the spec: the dispatcher's required-query-parameter
check for `GET /items/{item_id}` (spec §4.5: `needy` has no default, so
its absence must cause a rejection before the handler executes).  The
check itself lives in the framework, not under src/; only the handler
signature `needy: str` declares it.  `none` is the pre-handler
rejection. -/
def read_user_item_route (item_id : String) (needy : Option String) :
    Option (List (String × String)) :=
  match needy with
  | none => none
  | some n => some (read_user_item item_id n)

/-- A JSON value, as far as the `Item` schema needs it. -/
inductive Json where
  | str (s : String)
  | num (q : ℚ)
  | bool (b : Bool)
  | null
deriving DecidableEq, Repr

/-- Modelled from the spec: validation of a JSON object body against the
`Item` schema (spec §4.6 and §6: required `name` (str) and `price`
(number), optional `description` (str) and `tax` (number), rejecting
coercion failures such as a non-numeric `price`).  The validation layer
is framework code, not under src/; the field declarations are
src/main.py lines 14-18.  `none` is the pre-handler rejection. -/
def validateItem (body : List (String × Json)) : Option Item :=
  let optStr : Option Json → Option (Option String) := fun f =>
    match f with
    | none => some none
    | some (.str s) => some (some s)
    | some _ => none
  let optNum : Option Json → Option (Option ℚ) := fun f =>
    match f with
    | none => some none
    | some (.num q) => some (some q)
    | some _ => none
  match body.lookup "name", body.lookup "price",
      optStr (body.lookup "description"), optNum (body.lookup "tax") with
  | some (.str n), some (.num p), some d, some t =>
    some { name := n, description := d, price := p, tax := t }
  | _, _, _, _ => none

/-- Embedding of `async def create_item(item)` (src/main.py lines 98-100): echoes the
validated record. -/
def create_item (item : Item) : Item :=
  item

/-- The fixed long description text added by `read_item`. -/
def longDescription : String :=
  " This is an amazing item that has a long description"

end Main

open Main

/-- C1: for every `model_name` in {alexnet, resnet, lenet}, `get_model`
returns the object whose `model_name` is the input and whose `message` is
"Deep Learning FTW!" for alexnet, "LeCNN all the images" for lenet and
"Have some residuals" for resnet. -/
theorem get_model_enumerated_messages :
    ∀ m : ModelName, get_model m =
      (m, match m with
          | .alexnet => "Deep Learning FTW!"
          | .lenet => "LeCNN all the images"
          | .resnet => "Have some residuals") := by
  intro m
  cases m <;> rfl

/-- C2: for every validated input, the result object of `read_item`
binds `item_id` to the item_id path segment and `owner_id` to the
user_id path segment. -/
theorem read_item_binds_item_id_and_owner_id :
    ∀ (u : Int) (i : String) (q : Option String) (b : List String)
      (sh : Bool),
      (read_item u i q b sh).lookup "item_id" = some (.str i) ∧
      (read_item u i q b sh).lookup "owner_id" = some (.int u) := by
  intro u i q b sh
  unfold read_item
  cases q <;> (repeat' split) <;> simp_all [List.lookup]

/-- C3: the result of `read_item` carries the fixed long `description`
field exactly when `short` is false, for every combination of the other
parameters. -/
theorem read_item_description_iff_not_short :
    ∀ (u : Int) (i : String) (q : Option String) (b : List String)
      (sh : Bool),
      (read_item u i q b sh).lookup "description" =
        if sh then none else some (.str longDescription) := by
  intro u i q b sh
  unfold read_item longDescription
  cases q <;> (repeat' split) <;> simp_all [List.lookup]

/-- C4: the result of `read_item` carries a `q` field exactly when the
query parameter `q` is present and non-empty, and then it holds the
supplied string verbatim. -/
theorem read_item_q_iff_present_nonempty :
    ∀ (u : Int) (i : String) (q : Option String) (b : List String)
      (sh : Bool),
      (read_item u i q b sh).lookup "q" =
        (match q with
         | some s => if s = "" then none else some (Value.str s)
         | none => none) := by
  intro u i q b sh
  unfold read_item
  cases q <;> (repeat' split) <;> simp_all [List.lookup]

/-- C5: the result of `read_item` carries a `bananas` field exactly when
the collected `bananas` list is non-empty, and then it holds exactly
that list in request order. -/
theorem read_item_bananas_iff_nonempty :
    ∀ (u : Int) (i : String) (q : Option String) (b : List String)
      (sh : Bool),
      (read_item u i q b sh).lookup "bananas" =
        if b = [] then none else some (.strList b) := by
  intro u i q b sh
  unfold read_item
  cases q <;> (repeat' split) <;> simp_all [List.lookup]

/-- C6: for `GET /items/{item_id}`, a request without the `needy` query
parameter is rejected before the handler runs, and any request with both
parameters returns `{"item_id": item_id, "needy": needy}` with both
values unchanged. -/
theorem read_user_item_requires_needy :
    ∀ item_id : String,
      read_user_item_route item_id none = none ∧
      ∀ needy : String,
        read_user_item_route item_id (some needy) =
          some [("item_id", item_id), ("needy", needy)] := by
  intro item_id
  exact ⟨rfl, fun _ => rfl⟩

/-- C7: every body validating against the `Item` schema is echoed back
verbatim by `create_item` (the validated record, defaulted optional
fields included), and every body whose `price` is non-numeric is
rejected by validation before the handler runs. -/
theorem create_item_echo_and_price_rejection :
    (∀ (body : List (String × Json)) (item : Item),
      validateItem body = some item → create_item item = item) ∧
    (∀ (body : List (String × Json)) (j : Json),
      body.lookup "price" = some j → (∀ p : ℚ, j ≠ .num p) →
      validateItem body = none) := by
  constructor
  · intro body item _
    rfl
  · intro body j hj hnum
    simp only [validateItem]
    split
    · rename_i h1 h2 h3 h4
      rw [hj] at h2
      exact absurd (Option.some.inj h2) (hnum _)
    · rfl

/-- Witness for C7 at concrete inputs: a validated widget is echoed
unchanged, and a body whose price is the string "cheap" is rejected. -/
theorem create_item_echo_and_price_rejection_witness :
    create_item { name := "Widget", price := 5 } =
      { name := "Widget", price := 5 } ∧
    validateItem [("name", .str "Widget"), ("price", .str "cheap")] =
      none := by
  constructor
  · exact create_item_echo_and_price_rejection.1
      [("name", .str "Widget"), ("price", .num 5)]
      { name := "Widget", price := 5 } (by decide)
  · exact create_item_echo_and_price_rejection.2
      [("name", .str "Widget"), ("price", .str "cheap")]
      (.str "cheap") (by decide) (fun p h => by cases h)

/-- C8: `get_model`, which dispatches the lenet branch by underlying
string value, is extensionally equal over the enum to the variant
dispatching by enum identity. -/
theorem get_model_value_eq_identity_dispatch :
    ∀ m : ModelName, get_model m = get_model_by_identity m := by
  intro m
  cases m <;> rfl

/-- C9: `root` always returns exactly `{"message": "Hello World"}`. -/
theorem root_returns_hello_world :
    root = [("message", "Hello World")] :=
  rfl

/-- C10: whenever `read_item` adds the description field (short = false),
its value is exactly the string
` This is an amazing item that has a long description`, which begins
with a single space character. -/
theorem read_item_description_exact_text :
    ∀ (u : Int) (i : String) (q : Option String) (b : List String),
      (read_item u i q b false).lookup "description" =
        some (.str " This is an amazing item that has a long description")
      ∧ " This is an amazing item that has a long description".data.head?
          = some ' ' := by
  intro u i q b
  refine ⟨?_, by decide⟩
  unfold read_item
  cases q <;> (repeat' split) <;> simp_all [List.lookup]
